import Mathlib

/-!
Verification of the fitness-tracker module `homework.py`.

Numbers are modelled by `ℚ`: every constant in the source (0.65, 1.38,
1.79, 0.035, 0.029, 0.278, 1.1, integers) is an exact decimal, and the
spec's claims are about the arithmetic formulas, which `ℚ` carries
exactly.  Python exceptions become `Except String`, carrying the
formatted user-visible message.
-/

/-- Value object produced by `show_training_info` (class `InfoMessage`). -/
structure InfoMessage where
  training_type : String
  duration : ℚ
  distance : ℚ
  speed : ℚ
  calories : ℚ

/-- Base dataclass `Training`: fields `action`, `duration`, `weight`
in declaration order. -/
structure Training where
  action : ℚ
  duration : ℚ
  weight : ℚ

/-- `Training.LEN_STEP = 0.65`. -/
def Training.LEN_STEP : ℚ := 0.65

/-- `Training.M_IN_KM = 1000`. -/
def Training.M_IN_KM : ℚ := 1000

/-- `Training.MIN_IN_HOUR = 60`. -/
def Training.MIN_IN_HOUR : ℚ := 60

/-- `Training.get_distance`: `self.action * self.LEN_STEP / self.M_IN_KM`. -/
def Training.get_distance (t : Training) : ℚ :=
  t.action * Training.LEN_STEP / Training.M_IN_KM

/-- `Training.get_mean_speed`: `self.get_distance() / self.duration`. -/
def Training.get_mean_speed (t : Training) : ℚ :=
  t.get_distance / t.duration

/-- Dataclass `Running(Training)`: no extra fields. -/
structure Running extends Training

/-- `Running.CALORIES_MEAN_SPEED_MULTIPLIER = 18`. -/
def Running.CALORIES_MEAN_SPEED_MULTIPLIER : ℚ := 18

/-- `Running.CALORIES_MEAN_SPEED_SHIFT = 1.79`. -/
def Running.CALORIES_MEAN_SPEED_SHIFT : ℚ := 1.79

/-- `Running.get_spent_calories`, exactly as written in the source. -/
def Running.get_spent_calories (r : Running) : ℚ :=
  (Running.CALORIES_MEAN_SPEED_MULTIPLIER
      * r.toTraining.get_mean_speed
      + Running.CALORIES_MEAN_SPEED_SHIFT)
    * r.weight
    / Training.M_IN_KM
    * r.duration
    * Training.MIN_IN_HOUR

/-- Dataclass `SportsWalking(Training)`: adds field `height`. -/
structure SportsWalking extends Training where
  height : ℚ

/-- `SportsWalking.WEIGHT_MULTIPLIER_1 = 0.035`. -/
def SportsWalking.WEIGHT_MULTIPLIER_1 : ℚ := 0.035

/-- `SportsWalking.WEIGHT_MULTIPLIER_2 = 0.029`. -/
def SportsWalking.WEIGHT_MULTIPLIER_2 : ℚ := 0.029

/-- `SportsWalking.KMH_TO_MPS_MULTIPLIER = 0.278`. -/
def SportsWalking.KMH_TO_MPS_MULTIPLIER : ℚ := 0.278

/-- `SportsWalking.SENTIMETERS_IN_METER = 100`. -/
def SportsWalking.SENTIMETERS_IN_METER : ℚ := 100

/-- `SportsWalking.get_spent_calories`, exactly as written in the source. -/
def SportsWalking.get_spent_calories (s : SportsWalking) : ℚ :=
  (SportsWalking.WEIGHT_MULTIPLIER_1 * s.weight
      + ((s.toTraining.get_mean_speed
            * SportsWalking.KMH_TO_MPS_MULTIPLIER) ^ 2
          / (s.height
              / SportsWalking.SENTIMETERS_IN_METER))
        * SportsWalking.WEIGHT_MULTIPLIER_2
        * s.weight)
    * (s.duration * Training.MIN_IN_HOUR)

/-- Dataclass `Swimming(Training)`: adds fields `length_pool`, `count_pool`. -/
structure Swimming extends Training where
  length_pool : ℚ
  count_pool : ℚ

/-- `Swimming.LEN_STEP = 1.38` (overrides the base 0.65). -/
def Swimming.LEN_STEP : ℚ := 1.38

/-- `Swimming.MEAN_SPEED_TERM = 1.1`. -/
def Swimming.MEAN_SPEED_TERM : ℚ := 1.1

/-- `Swimming.WEIGHT_MULTIPLIER = 2`. -/
def Swimming.WEIGHT_MULTIPLIER : ℚ := 2

/-- `Swimming.get_distance`: Python attribute lookup finds the overridden
`LEN_STEP = 1.38` when `get_distance` runs on a `Swimming` instance. -/
def Swimming.get_distance (s : Swimming) : ℚ :=
  s.action * Swimming.LEN_STEP / Training.M_IN_KM

/-- `Swimming.get_mean_speed` (overrides the base method):
`self.length_pool * self.count_pool / self.M_IN_KM / self.duration`. -/
def Swimming.get_mean_speed (s : Swimming) : ℚ :=
  s.length_pool * s.count_pool / Training.M_IN_KM / s.duration

/-- `Swimming.get_spent_calories`, exactly as written in the source. -/
def Swimming.get_spent_calories (s : Swimming) : ℚ :=
  (s.get_mean_speed + Swimming.MEAN_SPEED_TERM)
    * Swimming.WEIGHT_MULTIPLIER
    * s.weight
    * s.duration

/-- The value returned by `read_package`: one of the three concrete
`Training` subclasses. -/
inductive TrainingVariant where
  | running (r : Running)
  | walking (w : SportsWalking)
  | swimming (s : Swimming)

/-- `Running(*data)`: positional construction, `None` when the number of
arguments does not match the 3 declared fields. -/
def Running.fromData : List ℚ → Option TrainingVariant
  | [a, d, w] => some (.running ⟨⟨a, d, w⟩⟩)
  | _ => none

/-- `SportsWalking(*data)`: positional construction, base fields first,
then `height`; `None` on any other arity than 4. -/
def SportsWalking.fromData : List ℚ → Option TrainingVariant
  | [a, d, w, h] => some (.walking ⟨⟨a, d, w⟩, h⟩)
  | _ => none

/-- `Swimming(*data)`: positional construction, base fields first, then
`length_pool`, `count_pool`; `None` on any other arity than 5. -/
def Swimming.fromData : List ℚ → Option TrainingVariant
  | [a, d, w, lp, cp] => some (.swimming ⟨⟨a, d, w⟩, lp, cp⟩)
  | _ => none

/-- The dict `TRAINING_DATA`: code ↦ (class, declared field count), the
counts being `len(fields(...))` = 5 / 3 / 4. -/
def TRAINING_DATA (code : String) :
    Option ((List ℚ → Option TrainingVariant) × Nat) :=
  if code = "SWM" then some (Swimming.fromData, 5)
  else if code = "RUN" then some (Running.fromData, 3)
  else if code = "WLK" then some (SportsWalking.fromData, 4)
  else none

/-- `WORKOUT_TYPE_ERROR.format(workout_type)`. -/
def WORKOUT_TYPE_ERROR (code : String) : String :=
  "Тип тренировки " ++ code ++ " не найден"

/-- `WORKOUT_LEN_ERROR.format(workout_type, len(data), expected)`. -/
def WORKOUT_LEN_ERROR (code : String) (got expected : Nat) : String :=
  "Неверное число аргументов тренировки " ++ code ++ ". Получено "
    ++ toString got ++ ", ожидается " ++ toString expected

/-- `read_package`: unknown-code check first, then the arity check, then
positional construction.  The final `none` branch is unreachable (the
arity check guarantees the constructor succeeds); it stands for the
`TypeError` Python would raise on a bad unpacking. -/
def read_package (workout_type : String) (data : List ℚ) :
    Except String TrainingVariant :=
  match TRAINING_DATA workout_type with
  | none => .error (WORKOUT_TYPE_ERROR workout_type)
  | some (build, n) =>
    if n ≠ data.length then
      .error (WORKOUT_LEN_ERROR workout_type data.length n)
    else
      match build data with
      | some t => .ok t
      | none => .error "TypeError"

/-! ### The formatter (`InfoMessage.get_message`)

Python renders each numeric field with `'{:.3f}'.format`: the value is
rounded to the nearest multiple of 1/1000 and printed in fixed-point
with exactly three digits after the decimal point.  We model that
directly on `ℚ`. -/

/-- Decimal digit characters of a natural number, most significant
first (the integral part of a `.3f` rendering). -/
def natDecimalDigits (n : Nat) : List Char :=
  if _h : n < 10 then [Nat.digitChar n]
  else natDecimalDigits (n / 10) ++ [Nat.digitChar (n % 10)]
decreasing_by exact Nat.div_lt_self (by omega) (by norm_num)

/-- The three fractional digits of a `.3f` rendering of `k / 1000`. -/
def threeDigitChars (k : Nat) : List Char :=
  [Nat.digitChar (k / 100 % 10), Nat.digitChar (k / 10 % 10),
   Nat.digitChar (k % 10)]

/-- `'{:.3f}'.format(q)`: round `q` to a multiple of 1/1000 and print
sign, integral digits, a point, and exactly three fractional digits —
always fixed-point, never scientific notation. -/
def fmtFixed3 (q : ℚ) : String :=
  let n : ℤ := round (q * 1000)
  let m : Nat := n.natAbs
  (if n < 0 then "-" else "")
    ++ String.mk (natDecimalDigits (m / 1000))
    ++ "." ++ String.mk (threeDigitChars (m % 1000))

/-- `InfoMessage.get_message`: the fixed `INFO` template filled with the
five fields, the numeric ones through `.3f` formatting. -/
def InfoMessage.get_message (i : InfoMessage) : String :=
  "Тип тренировки: " ++ i.training_type
    ++ "; Длительность: " ++ fmtFixed3 i.duration
    ++ " ч.; Дистанция: " ++ fmtFixed3 i.distance
    ++ " км; Ср. скорость: " ++ fmtFixed3 i.speed
    ++ " км/ч; Потрачено ккал: " ++ fmtFixed3 i.calories ++ "."

/-- `Training.show_training_info` as run on a `Running` instance
(`type(self).__name__` is `"Running"`). -/
def Running.show_training_info (r : Running) : InfoMessage :=
  ⟨"Running", r.duration, r.toTraining.get_distance,
    r.toTraining.get_mean_speed, r.get_spent_calories⟩

/-- `Training.show_training_info` as run on a `SportsWalking` instance. -/
def SportsWalking.show_training_info (s : SportsWalking) : InfoMessage :=
  ⟨"SportsWalking", s.duration, s.toTraining.get_distance,
    s.toTraining.get_mean_speed, s.get_spent_calories⟩

/-- `Training.show_training_info` as run on a `Swimming` instance: the
overridden `get_distance` and `get_mean_speed` are dispatched to. -/
def Swimming.show_training_info (s : Swimming) : InfoMessage :=
  ⟨"Swimming", s.duration, s.get_distance, s.get_mean_speed,
    s.get_spent_calories⟩

/-- A rendered numeric field: some sign/digit characters, then a single
decimal point followed by exactly three digit characters — fixed-point
notation with three digits after the point, whatever the magnitude. -/
def hasThreeFracDigits (s : String) : Prop :=
  ∃ l d₁ d₂ d₃, s.data = l ++ ['.', d₁, d₂, d₃]
    ∧ d₁.isDigit = true ∧ d₂.isDigit = true ∧ d₃.isDigit = true
    ∧ (∀ c ∈ l, c.isDigit = true ∨ c = '-')

/-! ### Helper lemmas -/

lemma digitChar_isDigit (k : Nat) (hk : k < 10) :
    (Nat.digitChar k).isDigit = true := by
  interval_cases k <;> decide

lemma natDecimalDigits_digits (n : Nat) :
    ∀ c ∈ natDecimalDigits n, c.isDigit = true := by
  induction n using Nat.strong_induction_on with
  | _ n ih =>
    rw [natDecimalDigits]
    split
    · next h =>
      intro c hc
      simp only [List.mem_singleton] at hc
      subst hc
      exact digitChar_isDigit _ h
    · next h =>
      intro c hc
      rw [List.mem_append] at hc
      rcases hc with hc | hc
      · exact ih (n / 10) (Nat.div_lt_self (by omega) (by norm_num)) c hc
      · simp only [List.mem_singleton] at hc
        subst hc
        exact digitChar_isDigit _ (Nat.mod_lt _ (by norm_num))

lemma threeDigitChars_digits (k : Nat) :
    ∀ c ∈ threeDigitChars k, c.isDigit = true := by
  intro c hc
  simp only [threeDigitChars, List.mem_cons, List.mem_singleton,
    List.not_mem_nil, or_false] at hc
  rcases hc with h | h | h <;> subst h <;>
    exact digitChar_isDigit _ (Nat.mod_lt _ (by norm_num))

lemma fmtFixed3_shape (q : ℚ) : hasThreeFracDigits (fmtFixed3 q) := by
  unfold fmtFixed3 hasThreeFracDigits
  refine ⟨(if round (q * 1000) < 0 then "-" else "").data
      ++ natDecimalDigits ((round (q * 1000)).natAbs / 1000),
    Nat.digitChar ((round (q * 1000)).natAbs % 1000 / 100 % 10),
    Nat.digitChar ((round (q * 1000)).natAbs % 1000 / 10 % 10),
    Nat.digitChar ((round (q * 1000)).natAbs % 1000 % 10), ?_, ?_, ?_, ?_, ?_⟩
  · simp only [String.data_append, threeDigitChars, List.append_assoc]
    rfl
  · exact digitChar_isDigit _ (Nat.mod_lt _ (by norm_num))
  · exact digitChar_isDigit _ (Nat.mod_lt _ (by norm_num))
  · exact digitChar_isDigit _ (Nat.mod_lt _ (by norm_num))
  · intro c hc
    rw [List.mem_append] at hc
    rcases hc with hc | hc
    · split at hc
      · right
        simpa using hc
      · simp at hc
    · exact Or.inl (natDecimalDigits_digits _ c hc)

/-! ### Claims -/

/-- C1: for every code in {"SWM","RUN","WLK"} and every argument list of
the required length, `read_package` returns exactly the corresponding
class, built by assigning the arguments positionally to the declared
fields in declaration order — base fields (action, duration, weight)
first, then the variant-specific fields. -/
theorem read_package_resolves_positionally (a d w lp cp : ℚ) :
    read_package "SWM" [a, d, w, lp, cp]
        = Except.ok (.swimming ⟨⟨a, d, w⟩, lp, cp⟩)
    ∧ read_package "RUN" [a, d, w] = Except.ok (.running ⟨⟨a, d, w⟩⟩)
    ∧ read_package "WLK" [a, d, w, lp]
        = Except.ok (.walking ⟨⟨a, d, w⟩, lp⟩) :=
  ⟨rfl, rfl, rfl⟩

/-- C2: for every code outside {"SWM","RUN","WLK"} and every argument
list, `read_package` fails with the unknown-workout-type error, whose
user-visible message names the bad code. -/
theorem read_package_unknown_code (code : String) (h1 : code ≠ "SWM")
    (h2 : code ≠ "RUN") (h3 : code ≠ "WLK") (data : List ℚ) :
    read_package code data = Except.error (WORKOUT_TYPE_ERROR code)
    ∧ WORKOUT_TYPE_ERROR code = "Тип тренировки " ++ code ++ " не найден" := by
  constructor
  · simp [read_package, TRAINING_DATA, h1, h2, h3]
  · rfl

/-- Witness for C2 at code "XYZ", args [1,2,3] (spec Scenario 4). -/
theorem read_package_unknown_code_witness :
    read_package "XYZ" [1, 2, 3] = Except.error (WORKOUT_TYPE_ERROR "XYZ")
    ∧ WORKOUT_TYPE_ERROR "XYZ" = "Тип тренировки " ++ "XYZ" ++ " не найден" :=
  read_package_unknown_code "XYZ" (by decide) (by decide) (by decide) [1, 2, 3]

/-- C3: for every registered code and every argument list whose length
differs from the variant's declared field count (Swimming 5, Running 3,
SportsWalking 4) — too few or too many — `read_package` fails with the
arity error, whose message states the code, the received count and the
expected count. -/
theorem read_package_arity_mismatch (data : List ℚ) :
    (data.length ≠ 5 →
      read_package "SWM" data
        = Except.error (WORKOUT_LEN_ERROR "SWM" data.length 5))
    ∧ (data.length ≠ 3 →
      read_package "RUN" data
        = Except.error (WORKOUT_LEN_ERROR "RUN" data.length 3))
    ∧ (data.length ≠ 4 →
      read_package "WLK" data
        = Except.error (WORKOUT_LEN_ERROR "WLK" data.length 4))
    ∧ ∀ code : String, ∀ got expected : Nat,
        WORKOUT_LEN_ERROR code got expected
          = "Неверное число аргументов тренировки " ++ code ++ ". Получено "
            ++ toString got ++ ", ожидается " ++ toString expected := by
  refine ⟨?_, ?_, ?_, fun _ _ _ => rfl⟩ <;> intro h <;>
    simp [read_package, TRAINING_DATA, Ne.symm h]

/-- Witness for C3 at code "RUN", args [15000,1] (spec Scenario 5):
received 2, expected 3. -/
theorem read_package_arity_mismatch_witness :
    read_package "RUN" [15000, 1]
      = Except.error (WORKOUT_LEN_ERROR "RUN" 2 3) :=
  (read_package_arity_mismatch [15000, 1]).2.1 (by decide)

/-- C4: for every `Running` instance with positive duration,
`get_spent_calories` returns
`(18 * mean_speed + 1.79) * weight / 1000 * duration * 60`, where the
mean speed is `(action * 0.65 / 1000) / duration`. -/
theorem running_calories_formula (r : Running) (hd : 0 < r.duration) :
    r.get_spent_calories
      = (18 * ((r.action * 0.65 / 1000) / r.duration) + 1.79)
          * r.weight / 1000 * r.duration * 60 := rfl

/-- Witness for C4 at the spec's Running scenario [15000, 1, 75]. -/
theorem running_calories_formula_witness :
    (Running.mk ⟨15000, 1, 75⟩).get_spent_calories
      = (18 * (((15000 : ℚ) * 0.65 / 1000) / 1) + 1.79)
          * 75 / 1000 * 1 * 60 :=
  running_calories_formula ⟨⟨15000, 1, 75⟩⟩ (by norm_num)

/-- C5: for every `SportsWalking` instance with positive duration and
height, `get_spent_calories` returns
`(0.035 * weight + (speed_mps^2 / (height / 100)) * 0.029 * weight) *
(duration * 60)` with `speed_mps = mean_speed * 0.278` and the height
converted from cm to m by division by 100 before it is divided by. -/
theorem walking_calories_formula (s : SportsWalking)
    (hd : 0 < s.duration) (hh : 0 < s.height) :
    s.get_spent_calories
      = (0.035 * s.weight
          + ((((s.action * 0.65 / 1000) / s.duration) * 0.278) ^ 2
              / (s.height / 100)) * 0.029 * s.weight)
          * (s.duration * 60) := rfl

/-- Witness for C5 at the spec's SportsWalking scenario [9000, 1, 75, 180]. -/
theorem walking_calories_formula_witness :
    (SportsWalking.mk ⟨9000, 1, 75⟩ 180).get_spent_calories
      = (0.035 * 75
          + (((((9000 : ℚ) * 0.65 / 1000) / 1) * 0.278) ^ 2
              / (180 / 100)) * 0.029 * 75)
          * (1 * 60) :=
  walking_calories_formula ⟨⟨9000, 1, 75⟩, 180⟩ (by norm_num) (by norm_num)

/-- C6: for every `Swimming` instance with positive duration, the mean
speed is `length_pool * count_pool / 1000 / duration` (overriding the
base step-based formula: the value does not depend on `action`), the
calories are `(mean_speed + 1.1) * 2 * weight * duration`, and at args
[720, 1, 80, 25, 40] the distance is 0.9936 km, the mean speed 1.0 km/h
and the calories 336.0. -/
theorem swimming_formulas (s : Swimming) (hd : 0 < s.duration) :
    (s.get_mean_speed = s.length_pool * s.count_pool / 1000 / s.duration
      ∧ (∀ a : ℚ,
          (Swimming.mk ⟨a, s.duration, s.weight⟩ s.length_pool
              s.count_pool).get_mean_speed = s.get_mean_speed)
      ∧ s.get_spent_calories
          = (s.get_mean_speed + 1.1) * 2 * s.weight * s.duration)
    ∧ ((Swimming.mk ⟨720, 1, 80⟩ 25 40).get_distance = 0.9936
      ∧ (Swimming.mk ⟨720, 1, 80⟩ 25 40).get_mean_speed = 1
      ∧ (Swimming.mk ⟨720, 1, 80⟩ 25 40).get_spent_calories = 336) := by
  refine ⟨⟨rfl, fun a => rfl, rfl⟩, ?_, ?_, ?_⟩ <;>
    norm_num [Swimming.get_distance, Swimming.get_mean_speed,
      Swimming.get_spent_calories, Swimming.LEN_STEP,
      Swimming.MEAN_SPEED_TERM, Swimming.WEIGHT_MULTIPLIER,
      Training.M_IN_KM]

/-- Witness for C6: the calorie value at the Swimming scenario instance. -/
theorem swimming_formulas_witness :
    (Swimming.mk ⟨720, 1, 80⟩ 25 40).get_spent_calories = 336 :=
  (swimming_formulas ⟨⟨720, 1, 80⟩, 25, 40⟩ (by norm_num)).2.2.2

/-- C7 counterexample: at code "RUN", args [15000, 1, 75], the computed
calories are 797.805, not ≈ 798.75 as claimed — the claim's stated
value is off by 0.945, far beyond 3-decimal accuracy. -/
theorem running_scenario_not_79875 :
    (Running.mk ⟨15000, 1, 75⟩).get_spent_calories = 797.805
    ∧ (Running.mk ⟨15000, 1, 75⟩).get_spent_calories ≠ 798.75
    ∧ |(Running.mk ⟨15000, 1, 75⟩).get_spent_calories - 798.75|
        > 1 / 2 := by
  have h : (Running.mk ⟨15000, 1, 75⟩).get_spent_calories = 797.805 := by
    norm_num [Running.get_spent_calories, Training.get_mean_speed,
      Training.get_distance, Running.CALORIES_MEAN_SPEED_MULTIPLIER,
      Running.CALORIES_MEAN_SPEED_SHIFT, Training.LEN_STEP,
      Training.M_IN_KM, Training.MIN_IN_HOUR]
  refine ⟨h, by rw [h]; norm_num, ?_⟩
  rw [h, abs_sub_comm,
    abs_of_pos (by norm_num : (0 : ℚ) < 798.75 - 797.805)]
  norm_num

/-- C7 (amended): for code "RUN" with args [15000, 1, 75] the distance
is 15000 * 0.65 / 1000 = 9.75 km, the mean speed is 9.75 / 1 = 9.75
km/h, and the calories are (18 * 9.75 + 1.79) * 75 / 1000 * 1 * 60
= 797.805. -/
theorem running_scenario_values :
    read_package "RUN" [15000, 1, 75]
        = Except.ok (.running ⟨⟨15000, 1, 75⟩⟩)
    ∧ (Running.mk ⟨15000, 1, 75⟩).toTraining.get_distance = 9.75
    ∧ (Running.mk ⟨15000, 1, 75⟩).toTraining.get_mean_speed = 9.75
    ∧ (Running.mk ⟨15000, 1, 75⟩).get_spent_calories
        = (18 * 9.75 + 1.79) * 75 / 1000 * 1 * 60
    ∧ (18 * (9.75 : ℚ) + 1.79) * 75 / 1000 * 1 * 60 = 797.805 := by
  refine ⟨rfl, ?_, ?_, ?_, by norm_num⟩ <;>
    norm_num [Running.get_spent_calories, Training.get_mean_speed,
      Training.get_distance, Running.CALORIES_MEAN_SPEED_MULTIPLIER,
      Running.CALORIES_MEAN_SPEED_SHIFT, Training.LEN_STEP,
      Training.M_IN_KM, Training.MIN_IN_HOUR]

/-- C8: every rendered `InfoMessage` follows the fixed template, and
every numeric field (duration, distance, speed, calories) is printed in
fixed-point with exactly three digits after the decimal point,
whatever its magnitude. -/
theorem get_message_template (i : InfoMessage) :
    ∃ a b c d : String,
      i.get_message
        = "Тип тренировки: " ++ i.training_type
            ++ "; Длительность: " ++ a ++ " ч.; Дистанция: " ++ b
            ++ " км; Ср. скорость: " ++ c
            ++ " км/ч; Потрачено ккал: " ++ d ++ "."
      ∧ a = fmtFixed3 i.duration ∧ b = fmtFixed3 i.distance
      ∧ c = fmtFixed3 i.speed ∧ d = fmtFixed3 i.calories
      ∧ hasThreeFracDigits a ∧ hasThreeFracDigits b
      ∧ hasThreeFracDigits c ∧ hasThreeFracDigits d :=
  ⟨fmtFixed3 i.duration, fmtFixed3 i.distance, fmtFixed3 i.speed,
    fmtFixed3 i.calories, rfl, rfl, rfl, rfl, rfl,
    fmtFixed3_shape _, fmtFixed3_shape _, fmtFixed3_shape _,
    fmtFixed3_shape _⟩

/-- C9: the unknown-code check runs before the arity check — an unknown
code fails with the unknown-workout-type message whatever the length of
the argument list, and that message is never the arity-mismatch
message. -/
theorem unknown_code_checked_first (code : String) (h1 : code ≠ "SWM")
    (h2 : code ≠ "RUN") (h3 : code ≠ "WLK") (data : List ℚ) :
    read_package code data = Except.error (WORKOUT_TYPE_ERROR code)
    ∧ ∀ got expected : Nat,
        WORKOUT_TYPE_ERROR code ≠ WORKOUT_LEN_ERROR code got expected := by
  constructor
  · simp [read_package, TRAINING_DATA, h1, h2, h3]
  · intro got expected heq
    have h := congrArg (fun s => s.data.head?) heq
    simp only [WORKOUT_TYPE_ERROR, WORKOUT_LEN_ERROR,
      String.data_append, List.append_assoc] at h
    rw [List.head?_append_of_ne_nil _ (by decide),
      List.head?_append_of_ne_nil _ (by decide)] at h
    exact absurd h (by decide)

/-- Witness for C9: code "XYZ" with a 2-element list — wrong length for
every variant, yet the error is the unknown-type one. -/
theorem unknown_code_checked_first_witness :
    read_package "XYZ" [1, 2] = Except.error (WORKOUT_TYPE_ERROR "XYZ")
    ∧ ∀ got expected : Nat,
        WORKOUT_TYPE_ERROR "XYZ" ≠ WORKOUT_LEN_ERROR "XYZ" got expected :=
  unknown_code_checked_first "XYZ" (by decide) (by decide) (by decide) [1, 2]

/-- C10: every variant's calorie formula is linear in the weight field:
scaling the weight by any factor scales `get_spent_calories` by the same
factor, the other fields held fixed. -/
theorem calories_linear_in_weight (l : ℚ) (r : Running)
    (s : SportsWalking) (sw : Swimming) :
    (Running.mk ⟨r.action, r.duration, l * r.weight⟩).get_spent_calories
        = l * r.get_spent_calories
    ∧ (SportsWalking.mk ⟨s.action, s.duration, l * s.weight⟩
          s.height).get_spent_calories = l * s.get_spent_calories
    ∧ (Swimming.mk ⟨sw.action, sw.duration, l * sw.weight⟩
          sw.length_pool sw.count_pool).get_spent_calories
        = l * sw.get_spent_calories := by
  refine ⟨?_, ?_, ?_⟩ <;>
    simp only [Running.get_spent_calories, SportsWalking.get_spent_calories,
      Swimming.get_spent_calories, Swimming.get_mean_speed,
      Training.get_mean_speed, Training.get_distance] <;>
    ring
